import Mathlib

/-!
Verification of the data-filtering and aggregation logic of the
masters-data-analysis dashboard (source: `src/master_deploy.py`).

The dataset is a list of observations; each pandas operation used by the
program is embedded shallowly:
  - a dataframe is a `List Row` (row order is the frame order);
  - a boolean `Series` produced by `isin` / `between` is a `List Bool`
    aligned with the frame;
  - `df.loc[mask]` keeps the rows whose mask entry is `true`;
  - `groupby(key, sort=True)` enumerates the distinct keys in sorted
    order and aggregates the rows of each key group;
  - `sort_values` is a stable sort (insertion sort);
  - missing values (NaN) are modelled with `Option`;
  - Python floats are modelled as rationals, with round-half-even
    rounding in the fixed-point string formats.
-/

set_option autoImplicit false

/-- One observation of the dataset: the typed view of a row after
`load_data` has tidied the frame (only the columns the filter and
aggregation layer reads are kept). -/
structure Row where
  country : String
  year : ℤ
  sex : String
  age_group : String
  suicides_no : ℤ
  population : ℤ
  suicides_per_100k : ℚ
  gdp_per_capita_usd : ℚ
deriving Repr, DecidableEq

/-- Embedding of `df[col].isin(values)`: the boolean series marking the
rows whose `col` entry occurs in `values` (an empty `values` list marks
no row at all, as in pandas). -/
def series_isin (df : List Row) (col : Row → String) (values : List String) : List Bool :=
  df.map (fun r => values.contains (col r))

/-- Embedding of `df[col].between(lo, hi)`: the boolean series of the
inclusive range test `lo <= col <= hi`. -/
def series_between (df : List Row) (col : Row → ℤ) (lo hi : ℤ) : List Bool :=
  df.map (fun r => decide (lo ≤ col r) && decide (col r ≤ hi))

/-- Embedding of `&` on two aligned boolean series. -/
def mask_and (m₁ m₂ : List Bool) : List Bool :=
  List.zipWith (· && ·) m₁ m₂

/-- Embedding of `df.loc[mask]`: keep the rows whose mask entry is
`true`, in frame order. -/
def df_loc (df : List Row) (mask : List Bool) : List Row :=
  (df.zip mask).filterMap (fun p => if p.2 then some p.1 else none)

/-- Embedding of `apply_filters` (src/master_deploy.py, lines 85-100):
build the four membership/range masks, conjoin them with `&`, and take
`df.loc` of the combined mask. -/
def apply_filters (df : List Row) (countries : List String) (year_range : ℤ × ℤ)
    (sexes : List String) (age_groups : List String) : List Row :=
  df_loc df
    (mask_and
      (mask_and
        (mask_and
          (series_isin df Row.country countries)
          (series_between df Row.year year_range.1 year_range.2))
        (series_isin df Row.sex sexes))
      (series_isin df Row.age_group age_groups))

/-- The boolean row predicate that the mask pipeline of `apply_filters`
computes. -/
def row_mask (countries : List String) (year_range : ℤ × ℤ)
    (sexes : List String) (age_groups : List String) (r : Row) : Bool :=
  countries.contains r.country
    && (decide (year_range.1 ≤ r.year) && decide (r.year ≤ year_range.2))
    && sexes.contains r.sex
    && age_groups.contains r.age_group

/-- Predicate written from the words of the spec (section 4.2): a row
passes the filter when its country, year, sex and age group each meet
the corresponding selection, the year test being the inclusive
`[min, max]` range. Used to compare the code of `apply_filters` against
the specified behaviour. -/
def spec_row_matches (countries : List String) (year_range : ℤ × ℤ)
    (sexes : List String) (age_groups : List String) (r : Row) : Prop :=
  r.country ∈ countries ∧ year_range.1 ≤ r.year ∧ r.year ≤ year_range.2
    ∧ r.sex ∈ sexes ∧ r.age_group ∈ age_groups

instance (countries : List String) (year_range : ℤ × ℤ)
    (sexes : List String) (age_groups : List String) (r : Row) :
    Decidable (spec_row_matches countries year_range sexes age_groups r) := by
  unfold spec_row_matches; infer_instance

/-- Witness for C10 at a concrete input: with the reversed year range
(5, 3) the filter output is empty even though the single row matches
every other selection. -/
def c10_row : Row :=
  { country := "A", year := 4, sex := "male", age_group := "15-24 years"
    suicides_no := 7, population := 100, suicides_per_100k := 1, gdp_per_capita_usd := 10 }

/-- Lexicographic comparison of two character lists by code point, the
order Python string comparison uses. -/
def chars_le : List Char → List Char → Bool
  | [], _ => true
  | _ :: _, [] => false
  | a :: t₁, b :: t₂ => if a < b then true else if b < a then false else chars_le t₁ t₂

/-- String comparison by code points, as Python `sorted` compares
strings. -/
def str_le (s₁ s₂ : String) : Bool :=
  chars_le s₁.toList s₂.toList

/-- The sorted list of distinct values of the country column, as built
by `sorted(df["country"].unique())` in `render_filters`. -/
def all_countries (df : List Row) : List String :=
  List.insertionSort (fun s₁ s₂ => str_le s₁ s₂ = true) (df.map Row.country).dedup

/-- The sorted list of distinct values of the sex column. -/
def all_sexes (df : List Row) : List String :=
  List.insertionSort (fun s₁ s₂ => str_le s₁ s₂ = true) (df.map Row.sex).dedup

/-- The sorted list of distinct values of the age_group column. -/
def all_age_groups (df : List Row) : List String :=
  List.insertionSort (fun s₁ s₂ => str_le s₁ s₂ = true) (df.map Row.age_group).dedup

/-- Embedding of `render_filters` (lines 103-151) restricted to its
data flow: each empty multiselect selection is replaced by the full
list of options for that column before `apply_filters` is called. -/
def render_filters (df : List Row) (selected_countries : List String)
    (year_range : ℤ × ℤ) (selected_sexes selected_age_groups : List String) : List Row :=
  let countries := if selected_countries.isEmpty then all_countries df else selected_countries
  let sexes := if selected_sexes.isEmpty then all_sexes df else selected_sexes
  let age_groups :=
    if selected_age_groups.isEmpty then all_age_groups df else selected_age_groups
  apply_filters df countries year_range sexes age_groups

/-- One-row table used to refute C2 as stated. -/
def c2_table : List Row :=
  [{ country := "A", year := 2000, sex := "male", age_group := "15-24 years"
     suicides_no := 1, population := 50, suicides_per_100k := 2, gdp_per_capita_usd := 3 }]

/-- State-passing embedding of the body of `apply_filters`: the frame
is threaded explicitly through each pandas call it performs.  `isin`,
`between`, the `&` of two boolean series and `df.loc[mask]` each read
the frame and allocate a fresh series or frame — none of them is an
inplace write — so every step passes the frame component through
unchanged. -/
def apply_filters_state (df : List Row) (countries : List String) (year_range : ℤ × ℤ)
    (sexes : List String) (age_groups : List String) : List Row × List Row :=
  let s₁ : List Row × List Bool := (df, series_isin df Row.country countries)
  let s₂ : List Row × List Bool :=
    (s₁.1, series_between s₁.1 Row.year year_range.1 year_range.2)
  let s₃ : List Row × List Bool := (s₂.1, series_isin s₂.1 Row.sex sexes)
  let s₄ : List Row × List Bool := (s₃.1, series_isin s₃.1 Row.age_group age_groups)
  let mask := mask_and (mask_and (mask_and s₁.2 s₂.2) s₃.2) s₄.2
  (s₄.1, df_loc s₄.1 mask)

/-- Round-half-even rounding to an integer, the rounding that the
Python fixed-point string formats (`:.1f`, `:,.0f`) apply to the value
being printed (here idealised over the rationals). -/
def round_half_even (x : ℚ) : ℤ :=
  let fl := ⌊x⌋
  let fr := x - fl
  if fr < 1 / 2 then fl
  else if 1 / 2 < fr then fl + 1
  else if fl % 2 = 0 then fl else fl + 1

/-- Rendering of `f"{value:.1f}"`: sign, then the rounded multiple of
one tenth printed with one decimal digit. -/
def fmt_fixed1 (q : ℚ) : String :=
  let n := (round_half_even (|q| * 10)).toNat
  (if q < 0 then "-" else "") ++ toString (n / 10) ++ "." ++ toString (n % 10)

/-- Insert a thousands separator every three digits, taking the digit
list least-significant first. -/
def group_digits : List Char → List Char
  | a :: b :: c :: d :: rest => a :: b :: c :: ',' :: group_digits (d :: rest)
  | l => l

/-- Decimal rendering of a natural number with comma thousands
separators. -/
def comma_group_nat (n : ℕ) : String :=
  ((group_digits (toString n).toList.reverse).reverse).asString

/-- Rendering of `f"{value:,.0f}"`: sign, then the rounded integer with
comma grouping. -/
def fmt_grouped0 (q : ℚ) : String :=
  (if q < 0 then "-" else "") ++ comma_group_nat (round_half_even |q|).toNat

/-- Embedding of `format_number` (lines 72-82): `none` models a
missing/NaN input (`pd.isna`), and each magnitude band scales the value
and renders it at one decimal place with the matching suffix; otherwise
the value is rendered as a comma-grouped integer. -/
def format_number (value : Option ℚ) : String :=
  match value with
  | none => "-"
  | some value =>
    if (1000000000 : ℚ) ≤ |value| then fmt_fixed1 (value / 1000000000) ++ "B"
    else if (1000000 : ℚ) ≤ |value| then fmt_fixed1 (value / 1000000) ++ "M"
    else if (1000 : ℚ) ≤ |value| then fmt_fixed1 (value / 1000) ++ "K"
    else fmt_grouped0 value

/-- The key enumeration of `groupby(col, sort=True)` on a string
column: distinct values in sorted order. -/
def group_keys_str (xs : List String) : List String :=
  List.insertionSort (fun s₁ s₂ => str_le s₁ s₂ = true) xs.dedup

/-- Per-country sum of `suicides_no` over the rows of that country, as
`groupby("country")["suicides_no"].sum()` computes it for one group. -/
def country_group_sum (df : List Row) (c : String) : ℤ :=
  ((df.filter (fun r => r.country == c)).map Row.suicides_no).sum

/-- Embedding of `df.groupby("country", as_index=False)["suicides_no"].sum()`
(line 240): one (country, total) pair per distinct country, countries
in sorted order. -/
def country_totals (df : List Row) : List (String × ℤ) :=
  (group_keys_str (df.map Row.country)).map (fun c => (c, country_group_sum df c))

/-- Embedding of the top-countries pipeline (lines 239-241):
group by country, sum `suicides_no`, stable sort descending by total,
take the first `n` (the page uses `n = 10`). -/
def top_countries_by_suicides (df : List Row) (n : ℕ) : List (String × ℤ) :=
  (List.insertionSort (fun a b => b.2 ≤ a.2) (country_totals df)).take n

/-- Brute-force per-country total, written directly from the words of
the spec (sum over the full table of the suicide counts of rows of
that country), for comparison with the grouped pipeline. -/
def spec_country_total (df : List Row) (c : String) : ℤ :=
  (df.map (fun r => if r.country = c then r.suicides_no else 0)).sum

/-- Three-country table for the C6 witness: totals A = 1, B = 1
(a tie) and C = 5. -/
def c6_table : List Row :=
  [ { country := "A", year := 2000, sex := "male", age_group := "15-24 years"
      suicides_no := 1, population := 10, suicides_per_100k := 1, gdp_per_capita_usd := 1 },
    { country := "C", year := 2000, sex := "male", age_group := "15-24 years"
      suicides_no := 5, population := 10, suicides_per_100k := 1, gdp_per_capita_usd := 1 },
    { country := "B", year := 2001, sex := "female", age_group := "25-34 years"
      suicides_no := 1, population := 10, suicides_per_100k := 1, gdp_per_capita_usd := 1 } ]

/-- Embedding of `Series.mean()`: `none` (NaN) on an empty series,
otherwise the sum divided by the count. -/
def mean (xs : List ℚ) : Option ℚ :=
  if xs.isEmpty then none else some (xs.sum / xs.length)

/-- The key enumeration of `groupby(col, sort=True)` on the integer
year column: distinct values in sorted order. -/
def group_keys_int (xs : List ℤ) : List ℤ :=
  List.insertionSort (· ≤ ·) xs.dedup

/-- Embedding of the per-country yearly aggregation of
`render_analysis` (lines 267-277): restrict to one country, group by
year (summing counts and populations, averaging the rate and the GDP
per capita), then `sort_values("year")` ascending. -/
def yearly_series (df : List Row) (country : String) :
    List (ℤ × ℤ × ℤ × Option ℚ × Option ℚ) :=
  List.insertionSort (fun a b => a.1 ≤ b.1)
    ((group_keys_int ((df.filter (fun r => r.country == country)).map Row.year)).map (fun y =>
      (y,
       (((df.filter (fun r => r.country == country)).filter (fun r => r.year == y)).map
           Row.suicides_no).sum,
       (((df.filter (fun r => r.country == country)).filter (fun r => r.year == y)).map
           Row.population).sum,
       mean (((df.filter (fun r => r.country == country)).filter (fun r => r.year == y)).map
           Row.suicides_per_100k),
       mean (((df.filter (fun r => r.country == country)).filter (fun r => r.year == y)).map
           Row.gdp_per_capita_usd))))

/-- Brute-force (country, year) suicide total, written from the words
of the spec: sum over the full table of the counts of the rows of that
country and year. -/
def spec_country_year_suicides (df : List Row) (c : String) (y : ℤ) : ℤ :=
  (df.map (fun r => if r.country = c ∧ r.year = y then r.suicides_no else 0)).sum

/-- Brute-force (country, year) population total, written from the
words of the spec. -/
def spec_country_year_population (df : List Row) (c : String) (y : ℤ) : ℤ :=
  (df.map (fun r => if r.country = c ∧ r.year = y then r.population else 0)).sum

/-- Table used for the concrete C7 example of the spec: country A has
rows at years 2001 and 2000 (deliberately out of order) with suicide
counts 20 and 10, plus an unrelated country B row. -/
def c7_table : List Row :=
  [ { country := "A", year := 2001, sex := "male", age_group := "15-24 years"
      suicides_no := 20, population := 300, suicides_per_100k := 2, gdp_per_capita_usd := 5 },
    { country := "B", year := 2000, sex := "male", age_group := "15-24 years"
      suicides_no := 99, population := 999, suicides_per_100k := 9, gdp_per_capita_usd := 9 },
    { country := "A", year := 2000, sex := "female", age_group := "25-34 years"
      suicides_no := 10, population := 200, suicides_per_100k := 1, gdp_per_capita_usd := 4 } ]

/-- Rendering of `f"{x:.1f}"` when the value may be NaN: Python prints
the string of letters n-a-n for a NaN float, and the one-decimal form
otherwise. -/
def fmt_fixed1_or_nan (v : Option ℚ) : String :=
  match v with
  | none => "nan"
  | some q => fmt_fixed1 q

/-- Embedding of `df[col].nunique()`: the number of distinct values. -/
def nunique (xs : List String) : ℕ :=
  xs.dedup.length

/-- The four KPI strings of `render_home` (lines 162-170): total
suicides through `format_number`, average rate through the plain
one-decimal format, total population through `format_number`, and the
comma-grouped distinct-country count. -/
def render_home_kpis (df : List Row) : String × String × String × String :=
  (format_number (some (((df.map Row.suicides_no).sum : ℤ) : ℚ)),
   fmt_fixed1_or_nan (mean (df.map Row.suicides_per_100k)),
   format_number (some (((df.map Row.population).sum : ℤ) : ℚ)),
   comma_group_nat (nunique (df.map Row.country)))

/-- Output of the visualisations page: either the informational
empty-state message or the charts (abstracted to the data handed to
the top-countries bar chart). -/
inductive VisOutput where
  | info (msg : String)
  | charts (top_countries : List (String × ℤ))
deriving Repr, DecidableEq

/-- Embedding of `render_visualisations` (lines 187-250) at the level
of its empty guard (lines 190-192): an empty filtered table yields the
informational message and nothing else runs. -/
def render_visualisations (df : List Row) : VisOutput :=
  if df.isEmpty then
    VisOutput.info
      "No data available with the current filters. Adjust the sidebar selections to continue."
  else
    VisOutput.charts (top_countries_by_suicides df 10)

/-- A raw CSV table as `pd.read_csv` hands it to the tidying steps of
`load_data`: a header naming the data columns (the index column is
already split off by `index_col=0`) and string-valued rows. -/
structure RawCsv where
  header : List String
  rows : List (List String)

/-- The header renaming table of the source (lines 15-22). -/
def COLUMN_RENAMES : List (String × String) :=
  [("age range", "age_range"),
   ("suicides/100k pop", "suicides_per_100k"),
   ("country-year", "country_year"),
   ("gdp_for_year ($)", "gdp_for_year_usd"),
   ("gdp_per_capita ($)", "gdp_per_capita_usd"),
   ("ag_group", "age_group")]

/-- Python `str.strip()`: remove whitespace from both ends. -/
def py_strip (s : String) : String :=
  (((s.toList.dropWhile Char.isWhitespace).reverse.dropWhile Char.isWhitespace).reverse).asString

/-- One column rename through the renaming table (line 53). -/
def rename_column (c : String) : String :=
  (COLUMN_RENAMES.lookup c).getD c

/-- The header after both rename passes of `load_data` (lines 52-53):
strip whitespace, then apply the renaming table. -/
def tidy_header (h : List String) : List String :=
  (h.map py_strip).map rename_column

/-- Position of a named column in the header (`df[name]` fails with a
key error exactly when this is `none`). -/
def col_index : List String → String → Option ℕ
  | [], _ => none
  | h :: t, name => if h == name then some 0 else (col_index t name).map (· + 1)

/-- The fixed six-bucket vocabulary given to `pd.Categorical`
(lines 56-67). -/
def AGE_RANGE_CATEGORIES : List String :=
  ["5-14 years", "15-24 years", "25-34 years", "35-54 years", "55-74 years", "75+ years"]

/-- Effect of the `pd.Categorical` conversion on one row: a value
outside the fixed vocabulary becomes missing. -/
def set_age_range_categorical (ai : ℕ) (row : List String) : List String :=
  row.set ai (if (row.get? ai).getD "" ∈ AGE_RANGE_CATEGORIES then (row.get? ai).getD "" else "NaN")

/-- The (country, year) sort key order of `df.sort_values(["country",
"year"])` (line 68): compare countries as strings, break ties by the
integer year. -/
def load_row_le (ci yi : ℕ) (r₁ r₂ : List String) : Bool :=
  if ((r₁.get? ci).getD "") == ((r₂.get? ci).getD "")
  then decide ((((r₁.get? yi).getD "").toInt?.getD 0) ≤ (((r₂.get? yi).getD "").toInt?.getD 0))
  else str_le ((r₁.get? ci).getD "") ((r₂.get? ci).getD "")

/-- Embedding of `load_data` (lines 48-69): `none` models a missing
file (the read raises), then the header is stripped and renamed, the
year column is required and cast to integers (`astype(int)` raises on
a non-integer value), the age-range column is required for the
categorical conversion, and the country column is required by the
final sort; each missing requirement surfaces as a load error. -/
def load_data (file : Option RawCsv) : Except String RawCsv :=
  match file with
  | none => Except.error "FileNotFoundError: cleaned_df.csv"
  | some csv =>
    match col_index (tidy_header csv.header) "year" with
    | none => Except.error "KeyError: year"
    | some yi =>
      if csv.rows.all (fun row => (((row.get? yi).getD "").toInt?).isSome) then
        match col_index (tidy_header csv.header) "age_range" with
        | none => Except.error "KeyError: age_range"
        | some ai =>
          match col_index (tidy_header csv.header) "country" with
          | none => Except.error "KeyError: country"
          | some ci =>
            Except.ok
              { header := tidy_header csv.header
                rows := List.insertionSort (fun r₁ r₂ => load_row_le ci yi r₁ r₂ = true)
                  (csv.rows.map (set_age_range_categorical ai)) }
      else Except.error "ValueError: invalid literal for int"

lemma df_loc_map (df : List Row) (p : Row → Bool) :
    df_loc df (df.map p) = df.filter p := by
  induction df with
  | nil => rfl
  | cons r t ih =>
    simp only [df_loc, List.map_cons, List.zip_cons_cons, List.filterMap_cons] at *
    by_cases h : p r <;> simp [h, List.filter_cons, ih]

lemma mask_and_map (df : List Row) (p q : Row → Bool) :
    mask_and (df.map p) (df.map q) = df.map (fun r => p r && q r) := by
  induction df with
  | nil => rfl
  | cons r t ih => simp [mask_and] at ih ⊢

lemma apply_filters_eq_filter (df : List Row) (countries : List String) (year_range : ℤ × ℤ)
    (sexes : List String) (age_groups : List String) :
    apply_filters df countries year_range sexes age_groups
      = df.filter (row_mask countries year_range sexes age_groups) := by
  unfold apply_filters series_isin series_between
  rw [mask_and_map, mask_and_map, mask_and_map, df_loc_map]
  rfl

lemma row_mask_eq_decide (countries : List String) (year_range : ℤ × ℤ)
    (sexes : List String) (age_groups : List String) (r : Row) :
    row_mask countries year_range sexes age_groups r
      = decide (spec_row_matches countries year_range sexes age_groups r) := by
  simp [row_mask, spec_row_matches, Bool.and_assoc, Bool.decide_and]

/-- C1: for every table and filter selection, `apply_filters` returns
exactly the rows of the input whose country, year (inclusive range),
sex and age group pass all four selection predicates; the result is an
order-preserving sublist of the input, and membership in the result is
exactly membership in the input plus satisfaction of the conjunction of
the four predicates. -/
theorem apply_filters_returns_exactly_matching_rows
    (df : List Row) (countries : List String) (year_range : ℤ × ℤ)
    (sexes : List String) (age_groups : List String) :
    apply_filters df countries year_range sexes age_groups
        = df.filter (fun r => decide (spec_row_matches countries year_range sexes age_groups r))
      ∧ (apply_filters df countries year_range sexes age_groups).Sublist df
      ∧ ∀ r : Row, r ∈ apply_filters df countries year_range sexes age_groups
          ↔ r ∈ df ∧ spec_row_matches countries year_range sexes age_groups r := by
  have he : apply_filters df countries year_range sexes age_groups
      = df.filter (fun r => decide (spec_row_matches countries year_range sexes age_groups r)) := by
    rw [apply_filters_eq_filter]
    exact List.filter_congr (fun r _ => row_mask_eq_decide countries year_range sexes age_groups r)
  refine ⟨he, ?_, ?_⟩
  · rw [he]; exact List.filter_sublist df
  · intro r
    rw [he, List.mem_filter]
    simp

/-- C8: filtering is idempotent — applying `apply_filters` with the
same selections to an already-filtered table returns the filtered table
unchanged. -/
theorem apply_filters_idempotent
    (df : List Row) (countries : List String) (year_range : ℤ × ℤ)
    (sexes : List String) (age_groups : List String) :
    apply_filters (apply_filters df countries year_range sexes age_groups)
        countries year_range sexes age_groups
      = apply_filters df countries year_range sexes age_groups := by
  rw [apply_filters_eq_filter, apply_filters_eq_filter, List.filter_filter]
  exact List.filter_congr (fun r _ => by rw [Bool.and_self])

/-- C10: when the year range has `min > max`, the inclusive between
test is unsatisfiable, so `apply_filters` returns the empty table
whatever the other selections are. -/
theorem apply_filters_reversed_year_range_empty
    (df : List Row) (countries : List String) (year_range : ℤ × ℤ)
    (sexes : List String) (age_groups : List String)
    (h : year_range.2 < year_range.1) :
    apply_filters df countries year_range sexes age_groups = [] := by
  rw [apply_filters_eq_filter]
  refine List.filter_eq_nil_iff.mpr (fun r _ => ?_)
  simp only [row_mask, Bool.and_eq_true, decide_eq_true_eq, not_and]
  intro hc
  rcases hc.1 with ⟨_, hy1, hy2⟩
  exact absurd (le_trans hy1 hy2) (not_le.mpr h)

theorem apply_filters_reversed_year_range_empty_witness :
    apply_filters [c10_row] ["A"] (5, 3) ["male"] ["15-24 years"] = [] :=
  apply_filters_reversed_year_range_empty [c10_row] ["A"] (5, 3) ["male"] ["15-24 years"]
    (by norm_num)

/-- C2 counterexample: on a one-row table, `apply_filters` with an
empty countries list returns the empty table, not the same result as
passing the full list of countries occurring in the table; so an empty
selection given directly to `apply_filters` does restrict the output. -/
theorem apply_filters_empty_countries_counterexample :
    apply_filters c2_table [] (2000, 2000) ["male"] ["15-24 years"]
      ≠ apply_filters c2_table ["A"] (2000, 2000) ["male"] ["15-24 years"] := by
  have h1 : apply_filters c2_table [] (2000, 2000) ["male"] ["15-24 years"] = [] := rfl
  have h2 : apply_filters c2_table ["A"] (2000, 2000) ["male"] ["15-24 years"] = c2_table := rfl
  rw [h1, h2]
  intro h
  simp [c2_table] at h

/-- C2 amended: `apply_filters` itself treats an empty selection as
matching nothing (its `isin` mask is all-false, so the result is the
empty table); the no-restriction behaviour lives one level up, in
`render_filters`, which replaces each empty selection with the full
list of values of that column before calling `apply_filters`, so an
empty user selection never restricts the output. -/
theorem empty_selection_resolved_before_filtering
    (df : List Row) (countries sexes age_groups : List String) (year_range : ℤ × ℤ) :
    apply_filters df [] year_range sexes age_groups = []
      ∧ render_filters df [] year_range sexes age_groups
          = render_filters df (all_countries df) year_range sexes age_groups
      ∧ render_filters df countries year_range [] age_groups
          = render_filters df countries year_range (all_sexes df) age_groups
      ∧ render_filters df countries year_range sexes []
          = render_filters df countries year_range sexes (all_age_groups df) := by
  refine ⟨?_, ?_, ?_, ?_⟩
  · rw [apply_filters_eq_filter]
    refine List.filter_eq_nil_iff.mpr (fun r _ => ?_)
    simp [row_mask]
  · simp only [render_filters, List.isEmpty_nil, if_true, ite_self]
  · simp only [render_filters, List.isEmpty_nil, if_true, ite_self]
  · simp only [render_filters, List.isEmpty_nil, if_true, ite_self]

/-- C9: the loaded table is never mutated by filtering — after
`apply_filters` runs, the input frame is unchanged (same rows, same
values, same order), and the returned value is the derived filtered
view. -/
theorem apply_filters_does_not_mutate_input
    (df : List Row) (countries : List String) (year_range : ℤ × ℤ)
    (sexes : List String) (age_groups : List String) :
    (apply_filters_state df countries year_range sexes age_groups).1 = df
      ∧ (apply_filters_state df countries year_range sexes age_groups).2
          = apply_filters df countries year_range sexes age_groups :=
  ⟨rfl, rfl⟩

lemma round_half_even_eq_of_lt (x : ℚ) (m : ℤ)
    (h₁ : (m : ℚ) ≤ x) (h₂ : x < m + 1 / 2) : round_half_even x = m := by
  have hf : ⌊x⌋ = m := Int.floor_eq_iff.mpr ⟨h₁, by linarith⟩
  unfold round_half_even
  rw [hf, if_pos (by linarith)]

lemma round_half_even_eq_of_gt (x : ℚ) (m : ℤ)
    (h₁ : (m : ℚ) + 1 / 2 < x) (h₂ : x < m + 1) : round_half_even x = m + 1 := by
  have hf : ⌊x⌋ = m := Int.floor_eq_iff.mpr ⟨by linarith, by linarith⟩
  unfold round_half_even
  rw [hf, if_neg (by linarith), if_pos (by linarith)]

lemma format_number_band_B (x : ℚ) (h : (1000000000 : ℚ) ≤ |x|) :
    format_number (some x) = fmt_fixed1 (x / 1000000000) ++ "B" := by
  simp only [format_number]
  rw [if_pos h]

lemma format_number_band_M (x : ℚ) (h₁ : (1000000 : ℚ) ≤ |x|) (h₂ : |x| < 1000000000) :
    format_number (some x) = fmt_fixed1 (x / 1000000) ++ "M" := by
  simp only [format_number]
  rw [if_neg (not_le.mpr h₂), if_pos h₁]

lemma format_number_band_K (x : ℚ) (h₁ : (1000 : ℚ) ≤ |x|) (h₂ : |x| < 1000000) :
    format_number (some x) = fmt_fixed1 (x / 1000) ++ "K" := by
  simp only [format_number]
  rw [if_neg (not_le.mpr (lt_of_lt_of_le h₂ (by norm_num))), if_neg (not_le.mpr h₂), if_pos h₁]

lemma format_number_band_low (x : ℚ) (h : |x| < 1000) :
    format_number (some x) = fmt_grouped0 x := by
  simp only [format_number]
  rw [if_neg (not_le.mpr (lt_of_lt_of_le h (by norm_num))),
    if_neg (not_le.mpr (lt_of_lt_of_le h (by norm_num))), if_neg (not_le.mpr h)]

lemma format_number_ex_M : format_number (some 1234567) = "1.2M" := by
  have ha : |(1234567 : ℚ)| = 1234567 := abs_of_nonneg (by norm_num)
  rw [format_number_band_M 1234567 (by rw [ha]; norm_num) (by rw [ha]; norm_num)]
  have hr : round_half_even (|(1234567 : ℚ) / 1000000| * 10) = 12 := by
    rw [show |(1234567 : ℚ) / 1000000| = 1234567 / 1000000 from abs_of_nonneg (by norm_num)]
    exact round_half_even_eq_of_lt _ 12 (by norm_num) (by norm_num)
  simp only [fmt_fixed1, hr]
  rw [if_neg (by norm_num)]
  rfl

lemma format_number_ex_plain : format_number (some 950) = "950" := by
  have ha : |(950 : ℚ)| = 950 := abs_of_nonneg (by norm_num)
  rw [format_number_band_low 950 (by rw [ha]; norm_num)]
  have hr : round_half_even (|(950 : ℚ)|) = 950 := by
    rw [ha]
    exact round_half_even_eq_of_lt _ 950 (by norm_num) (by norm_num)
  simp only [fmt_grouped0, hr]
  rw [if_neg (by norm_num)]
  rfl

lemma format_number_ex_B : format_number (some 2500000000) = "2.5B" := by
  have ha : |(2500000000 : ℚ)| = 2500000000 := abs_of_nonneg (by norm_num)
  rw [format_number_band_B 2500000000 (by rw [ha]; norm_num)]
  have hr : round_half_even (|(2500000000 : ℚ) / 1000000000| * 10) = 25 := by
    rw [show |(2500000000 : ℚ) / 1000000000| = 2500000000 / 1000000000 from
      abs_of_nonneg (by norm_num)]
    exact round_half_even_eq_of_lt _ 25 (by norm_num) (by norm_num)
  simp only [fmt_fixed1, hr]
  rw [if_neg (by norm_num)]
  rfl

lemma format_number_ex_K : format_number (some 1500) = "1.5K" := by
  have ha : |(1500 : ℚ)| = 1500 := abs_of_nonneg (by norm_num)
  rw [format_number_band_K 1500 (by rw [ha]; norm_num) (by rw [ha]; norm_num)]
  have hr : round_half_even (|(1500 : ℚ) / 1000| * 10) = 15 := by
    rw [show |(1500 : ℚ) / 1000| = 1500 / 1000 from abs_of_nonneg (by norm_num)]
    exact round_half_even_eq_of_lt _ 15 (by norm_num) (by norm_num)
  simp only [fmt_fixed1, hr]
  rw [if_neg (by norm_num)]
  rfl

lemma format_number_ex_neg : format_number (some (-4998 / 5)) = "-1,000" := by
  have ha : |(-4998 / 5 : ℚ)| = 4998 / 5 := by
    rw [abs_of_neg (by norm_num)]
    norm_num
  rw [format_number_band_low (-4998 / 5) (by rw [ha]; norm_num)]
  have hr : round_half_even (|(-4998 / 5 : ℚ)|) = 1000 := by
    rw [ha]
    exact round_half_even_eq_of_gt _ 999 (by norm_num) (by norm_num)
  simp only [fmt_grouped0, hr]
  rw [if_pos (by norm_num)]
  rfl

/-- C4: `format_number` is a pure total function of a
numeric-or-missing input: missing/NaN input gives the placeholder
string, each magnitude band at or above 1e3/1e6/1e9 is rendered at one
decimal place with the suffix K/M/B of the scale, values below one
thousand are rendered as comma-grouped integers; in particular
1234567 renders as the string M-form and 950 plainly. -/
theorem format_number_formats_by_magnitude :
    format_number none = "-"
      ∧ format_number (some 1234567) = "1.2M"
      ∧ format_number (some 950) = "950"
      ∧ format_number (some 2500000000) = "2.5B"
      ∧ format_number (some 1500) = "1.5K"
      ∧ format_number (some (-4998 / 5)) = "-1,000"
      ∧ (∀ x : ℚ, (1000000000 : ℚ) ≤ |x| →
          ∃ s, format_number (some x) = s ++ "B")
      ∧ (∀ x : ℚ, (1000000 : ℚ) ≤ |x| → |x| < 1000000000 →
          ∃ s, format_number (some x) = s ++ "M")
      ∧ (∀ x : ℚ, (1000 : ℚ) ≤ |x| → |x| < 1000000 →
          ∃ s, format_number (some x) = s ++ "K")
      ∧ (∀ x : ℚ, |x| < 1000 → format_number (some x) = fmt_grouped0 x) :=
  ⟨rfl, format_number_ex_M, format_number_ex_plain, format_number_ex_B,
   format_number_ex_K, format_number_ex_neg,
   fun x h => ⟨_, format_number_band_B x h⟩,
   fun x h₁ h₂ => ⟨_, format_number_band_M x h₁ h₂⟩,
   fun x h₁ h₂ => ⟨_, format_number_band_K x h₁ h₂⟩,
   fun x h => format_number_band_low x h⟩

theorem format_number_formats_by_magnitude_witness :
    (∃ s, format_number (some 2000000000) = s ++ "B")
      ∧ (∃ s, format_number (some 5000000) = s ++ "M")
      ∧ (∃ s, format_number (some 2000) = s ++ "K")
      ∧ format_number (some 12) = fmt_grouped0 12 := by
  have hB : |(2000000000 : ℚ)| = 2000000000 := abs_of_nonneg (by norm_num)
  have hM : |(5000000 : ℚ)| = 5000000 := abs_of_nonneg (by norm_num)
  have hK : |(2000 : ℚ)| = 2000 := abs_of_nonneg (by norm_num)
  have hL : |(12 : ℚ)| = 12 := abs_of_nonneg (by norm_num)
  exact ⟨format_number_formats_by_magnitude.2.2.2.2.2.2.1 2000000000 (by rw [hB]; norm_num),
    format_number_formats_by_magnitude.2.2.2.2.2.2.2.1 5000000
      (by rw [hM]; norm_num) (by rw [hM]; norm_num),
    format_number_formats_by_magnitude.2.2.2.2.2.2.2.2.1 2000
      (by rw [hK]; norm_num) (by rw [hK]; norm_num),
    format_number_formats_by_magnitude.2.2.2.2.2.2.2.2.2 12 (by rw [hL]; norm_num)⟩

lemma country_group_sum_eq_spec (df : List Row) (c : String) :
    country_group_sum df c = spec_country_total df c := by
  induction df with
  | nil => rfl
  | cons r t ih =>
    simp only [country_group_sum, spec_country_total, List.filter_cons, List.map_cons,
      List.sum_cons] at *
    by_cases h : r.country = c <;> simp [h, beq_iff_eq, ih]

/-- C6: `top_countries_by_suicides` returns at most `n` entries, the
entries are in descending order of total, every returned total equals
the brute-force per-country recomputation over the full table, and the
descending sort is stable (a tie keeps the original grouping order of
the two entries). -/
theorem top_countries_by_suicides_correct (df : List Row) (n : ℕ) :
    (top_countries_by_suicides df n).length ≤ n
      ∧ (top_countries_by_suicides df n).Pairwise (fun a b => b.2 ≤ a.2)
      ∧ (∀ p ∈ top_countries_by_suicides df n, p.2 = spec_country_total df p.1)
      ∧ ∀ a b : String × ℤ, a.2 = b.2 → [a, b].Sublist (country_totals df)
          → [a, b].Sublist (List.insertionSort (fun a b => b.2 ≤ a.2) (country_totals df)) := by
  haveI hTot : IsTotal (String × ℤ) (fun a b => b.2 ≤ a.2) := ⟨fun a b => le_total b.2 a.2⟩
  haveI hTrans : IsTrans (String × ℤ) (fun a b => b.2 ≤ a.2) :=
    ⟨fun _ _ _ hab hbc => le_trans hbc hab⟩
  refine ⟨List.length_take_le n _, ?_, ?_, ?_⟩
  · exact List.Pairwise.sublist (List.take_sublist n _)
      (List.sorted_insertionSort (fun a b : String × ℤ => b.2 ≤ a.2) (country_totals df))
  · intro p hp
    have hp₁ : p ∈ List.insertionSort (fun a b : String × ℤ => b.2 ≤ a.2) (country_totals df) :=
      (List.take_sublist n _).subset hp
    have hp₂ : p ∈ country_totals df := (List.mem_insertionSort _).mp hp₁
    rcases List.mem_map.mp hp₂ with ⟨c, _, hc⟩
    rw [← hc]
    exact country_group_sum_eq_spec df c
  · intro a b hab hsub
    exact List.pair_sublist_insertionSort (le_of_eq hab.symm) hsub

theorem top_countries_by_suicides_correct_witness :
    ((5 : ℤ) = spec_country_total c6_table "C")
      ∧ [(("A" : String), (1 : ℤ)), ("B", 1)].Sublist
          (List.insertionSort (fun a b => b.2 ≤ a.2) (country_totals c6_table)) :=
  ⟨(top_countries_by_suicides_correct c6_table 10).2.2.1 ("C", 5) (by decide),
   (top_countries_by_suicides_correct c6_table 10).2.2.2 ("A", 1) ("B", 1) rfl (by decide)⟩

lemma sum_field_filter_eq_spec (df : List Row) (c : String) (y : ℤ) (f : Row → ℤ) :
    ((df.filter (fun r => r.year == y && r.country == c)).map f).sum
      = (df.map (fun r => if r.country = c ∧ r.year = y then f r else 0)).sum := by
  induction df with
  | nil => rfl
  | cons r t ih =>
    simp only [List.filter_cons, List.map_cons, List.sum_cons]
    by_cases hc : r.country = c <;> by_cases hy : r.year = y <;>
      simp [hc, hy, ih]

lemma filter_country_year (df : List Row) (c : String) (y : ℤ) :
    (df.filter (fun r => r.country == c)).filter (fun r => r.year == y)
      = df.filter (fun r => r.country == c && r.year == y) := by
  rw [List.filter_filter]
  exact List.filter_congr (fun r _ => Bool.and_comm _ _)

/-- C7: `yearly_series` is sorted ascending by year; each entry
aggregates exactly the rows of the given country and that year (the
sums agreeing with a brute-force recomputation over the full table,
the means being the means of that group); the years appearing are
exactly the years of that country in the table; and on the concrete
table with country A rows at years 2000 and 2001 with counts 10 and
20, the (year, total) projection is [(2000, 10), (2001, 20)] in
ascending year order. -/
theorem yearly_series_correct (df : List Row) (c : String) :
    (yearly_series df c).Pairwise (fun a b => a.1 ≤ b.1)
      ∧ (∀ (i : ℕ) (e : ℤ × ℤ × ℤ × Option ℚ × Option ℚ),
          (yearly_series df c)[i]? = some e →
            e.2.1 = spec_country_year_suicides df c e.1
            ∧ e.2.2.1 = spec_country_year_population df c e.1
            ∧ e.2.2.2.1
                = mean ((df.filter (fun r => r.country == c && r.year == e.1)).map
                    Row.suicides_per_100k)
            ∧ e.2.2.2.2
                = mean ((df.filter (fun r => r.country == c && r.year == e.1)).map
                    Row.gdp_per_capita_usd))
      ∧ (∀ y : ℤ, (∃ e ∈ yearly_series df c, e.1 = y)
          ↔ ∃ r ∈ df, r.country = c ∧ r.year = y)
      ∧ (yearly_series c7_table "A").map (fun e => (e.1, e.2.1)) = [(2000, 10), (2001, 20)] := by
  haveI hTot : IsTotal (ℤ × ℤ × ℤ × Option ℚ × Option ℚ) (fun a b => a.1 ≤ b.1) :=
    ⟨fun a b => le_total a.1 b.1⟩
  haveI hTrans : IsTrans (ℤ × ℤ × ℤ × Option ℚ × Option ℚ) (fun a b => a.1 ≤ b.1) :=
    ⟨fun _ _ _ h₁ h₂ => le_trans h₁ h₂⟩
  refine ⟨?_, ?_, ?_, ?_⟩
  · exact List.sorted_insertionSort
      (fun a b : ℤ × ℤ × ℤ × Option ℚ × Option ℚ => a.1 ≤ b.1) _
  · intro i e hi
    have he : e ∈ yearly_series df c := List.getElem?_mem hi
    have he₁ := (List.mem_insertionSort _).mp he
    rcases List.mem_map.mp he₁ with ⟨y, _, hy⟩
    subst hy
    refine ⟨?_, ?_, ?_, ?_⟩
    · show (((df.filter (fun r => r.country == c)).filter (fun r => r.year == y)).map
          Row.suicides_no).sum = spec_country_year_suicides df c y
      rw [List.filter_filter]
      exact sum_field_filter_eq_spec df c y Row.suicides_no
    · show (((df.filter (fun r => r.country == c)).filter (fun r => r.year == y)).map
          Row.population).sum = spec_country_year_population df c y
      rw [List.filter_filter]
      exact sum_field_filter_eq_spec df c y Row.population
    · show mean (((df.filter (fun r => r.country == c)).filter (fun r => r.year == y)).map
          Row.suicides_per_100k)
        = mean ((df.filter (fun r => r.country == c && r.year == y)).map Row.suicides_per_100k)
      rw [filter_country_year]
    · show mean (((df.filter (fun r => r.country == c)).filter (fun r => r.year == y)).map
          Row.gdp_per_capita_usd)
        = mean ((df.filter (fun r => r.country == c && r.year == y)).map Row.gdp_per_capita_usd)
      rw [filter_country_year]
  · intro y
    constructor
    · rintro ⟨e, he, hy⟩
      have he₁ := (List.mem_insertionSort _).mp he
      rcases List.mem_map.mp he₁ with ⟨y₀, hy₀, he₀⟩
      have hyy : y₀ = y := by rw [← hy, ← he₀]
      subst hyy
      have h₂ : y₀ ∈ ((df.filter (fun r => r.country == c)).map Row.year).dedup :=
        (List.mem_insertionSort _).mp hy₀
      rcases List.mem_map.mp (List.mem_dedup.mp h₂) with ⟨r, hr, hry⟩
      rcases List.mem_filter.mp hr with ⟨hrdf, hrc⟩
      exact ⟨r, hrdf, by simpa using hrc, hry⟩
    · rintro ⟨r, hr, hrc, hry⟩
      have hmem : r ∈ df.filter (fun r => r.country == c) :=
        List.mem_filter.mpr ⟨hr, by simpa using hrc⟩
      have hy₁ : y ∈ (df.filter (fun r => r.country == c)).map Row.year :=
        List.mem_map.mpr ⟨r, hmem, hry⟩
      have hy₂ : y ∈ group_keys_int ((df.filter (fun r => r.country == c)).map Row.year) :=
        (List.mem_insertionSort _).mpr (List.mem_dedup.mpr hy₁)
      exact ⟨_, (List.mem_insertionSort _).mpr (List.mem_map.mpr ⟨y, hy₂, rfl⟩), rfl⟩
  · decide

theorem yearly_series_correct_witness :
    (yearly_series c7_table "A")[0]? = some (2000, 10, 200, mean [(1 : ℚ)], mean [(4 : ℚ)])
      ∧ ((10 : ℤ) = spec_country_year_suicides c7_table "A" 2000
        ∧ (200 : ℤ) = spec_country_year_population c7_table "A" 2000
        ∧ mean [(1 : ℚ)]
            = mean ((c7_table.filter (fun r => r.country == "A" && r.year == 2000)).map
                Row.suicides_per_100k)
        ∧ mean [(4 : ℚ)]
            = mean ((c7_table.filter (fun r => r.country == "A" && r.year == 2000)).map
                Row.gdp_per_capita_usd)) :=
  ⟨rfl, (yearly_series_correct c7_table "A").2.1 0
    (2000, 10, 200, mean [(1 : ℚ)], mean [(4 : ℚ)]) rfl⟩

/-- C3: on the empty filtered table nothing crashes or divides by
zero — the mean underlying the average-rate KPI is undefined (NaN,
modelled `none`) and the Home KPI row renders placeholder text (sums
render as the string 0, the undefined mean renders as the NaN
placeholder string), while the visualisations page renderer returns
the informational empty-state message. -/
theorem empty_table_placeholder_rendering :
    mean [] = none
      ∧ render_home_kpis [] = ("0", "nan", "0", "0")
      ∧ render_visualisations []
          = VisOutput.info
              "No data available with the current filters. Adjust the sidebar selections to continue." := by
  have hz : format_number (some (0 : ℚ)) = "0" := by
    rw [format_number_band_low 0 (by norm_num)]
    have hr : round_half_even |(0 : ℚ)| = 0 := by
      rw [abs_zero]
      exact round_half_even_eq_of_lt 0 0 (by norm_num) (by norm_num)
    simp only [fmt_grouped0, hr]
    rw [if_neg (by norm_num)]
    rfl
  have h₁ : (((List.map Row.suicides_no ([] : List Row)).sum : ℤ) : ℚ) = 0 := by simp
  have h₂ : (((List.map Row.population ([] : List Row)).sum : ℤ) : ℚ) = 0 := by simp
  refine ⟨rfl, ?_, rfl⟩
  simp only [render_home_kpis, h₁, h₂, hz]
  rfl

lemma col_index_eq_none (header : List String) (name : String) (h : name ∉ header) :
    col_index header name = none := by
  induction header with
  | nil => rfl
  | cons a t ih =>
    rw [List.mem_cons, not_or] at h
    have hne : (a == name) = false := by
      simp only [beq_eq_false_iff_ne, ne_eq]
      exact fun he => h.1 he.symm
    simp [col_index, hne, ih h.2]

/-- C5: `load_data` fails with a load error when the file is missing,
and fails with a load error (rather than returning a table) on any CSV
whose tidied header lacks the country column — the sort by (country,
year) requires it. -/
theorem load_data_fails_on_missing_file_or_column :
    (∃ e, load_data none = Except.error e)
      ∧ ∀ csv : RawCsv, "country" ∉ tidy_header csv.header →
          ∃ e, load_data (some csv) = Except.error e := by
  refine ⟨⟨_, rfl⟩, ?_⟩
  intro csv h
  have hc := col_index_eq_none (tidy_header csv.header) "country" h
  cases hy : col_index (tidy_header csv.header) "year" with
  | none => exact ⟨"KeyError: year", by simp only [load_data, hy]⟩
  | some yi =>
    cases ha : csv.rows.all (fun row => (((row.get? yi).getD "").toInt?).isSome) with
    | false =>
      have hno : ¬ ((csv.rows.all fun row => (((row.get? yi).getD "").toInt?).isSome) = true) := by
        rw [ha]; exact Bool.false_ne_true
      refine ⟨"ValueError: invalid literal for int", ?_⟩
      simp only [load_data, hy]
      rw [if_neg hno]
    | true =>
      cases haa : col_index (tidy_header csv.header) "age_range" with
      | none =>
        refine ⟨"KeyError: age_range", ?_⟩
        simp only [load_data, hy]
        rw [if_pos ha]
        simp only [haa]
      | some ai =>
        refine ⟨"KeyError: country", ?_⟩
        simp only [load_data, hy]
        rw [if_pos ha]
        simp only [haa, hc]

theorem load_data_fails_on_missing_file_or_column_witness :
    ∃ e, load_data (some { header := ["year", " age range ", "sex"], rows := [] })
      = Except.error e :=
  load_data_fails_on_missing_file_or_column.2
    { header := ["year", " age range ", "sex"], rows := [] } (by decide)
